import Mathlib

/-!
Shallow embedding of the gesture-driven annotation engine and its
offline-first persistence layer of the Instant_SOP repository.

Numeric conventions: JavaScript numbers used as coordinates, scales and
offsets are modelled as rationals (ℚ); millisecond timestamps, which the
code only compares and adds, are modelled as integers (ℤ).
-/

/-- The two annotation kinds, from the `kind: 'arrow' | 'label'` union in
`src/lib/idb.ts` (`StepAnnotation` interface). -/
inductive AnnKind where
  | arrow
  | label
deriving DecidableEq, Repr

/-- The loosely typed style bag `{ color?, fontSize?, strokeWidth? }` of
`StepAnnotation` in `src/lib/idb.ts`. -/
structure AnnStyle where
  color : Option String
  fontSize : Option ℚ
  strokeWidth : Option ℚ
deriving DecidableEq, Repr

/-- One annotation record, mirroring the `StepAnnotation` interface of
`src/lib/idb.ts` (id, step_id, t_start_ms, t_end_ms, kind, x, y, angle,
text, style). -/
structure Annot where
  id : String
  step_id : String
  t_start_ms : ℤ
  t_end_ms : ℤ
  kind : AnnKind
  x : ℚ
  y : ℚ
  angle : Option ℚ
  text : Option String
  style : Option AnnStyle
deriving DecidableEq, Repr

/-! ## Coordinate normalizer (src/unnamed/part_005, lines 557-559) -/

/-- `const normToPixel = (norm, dimension) => norm * dimension`. -/
def normToPixel (norm dimension : ℚ) : ℚ := norm * dimension

/-- `const pixelToNorm = (pixel, dimension) => pixel / dimension`. -/
def pixelToNorm (pixel dimension : ℚ) : ℚ := pixel / dimension

/-- `Math.max(0, Math.min(1, v))`, the clamp applied to dragged annotation
positions in both StepPlayer variants. -/
def clamp01 (v : ℚ) : ℚ := max 0 (min 1 v)

/-! ## Time-sync filter (src/unnamed/part_005, lines 123-125 and 551-555) -/

/-- The time filter common to both StepPlayer variants:
`annotations.filter((ann) => currentTime >= ann.t_start_ms && currentTime <= ann.t_end_ms)`. -/
def visibleAnns (currentTime : ℤ) (anns : List Annot) : List Annot :=
  anns.filter fun ann =>
    decide (ann.t_start_ms ≤ currentTime) && decide (currentTime ≤ ann.t_end_ms)

/-- Mode selection of the SVG StepPlayer (lines 547-549):
`filterAnnotationsByTime !== undefined ? filterAnnotationsByTime : showControls`. -/
def shouldFilterByTime (filterByTime : Option Bool) (showControls : Bool) : Bool :=
  filterByTime.getD showControls

/-- `visibleAnnotations` of the SVG StepPlayer (lines 551-555): filter when
in view mode, show everything in edit mode. -/
def visibleAnnsSvg (filterByTime : Option Bool) (showControls : Bool)
    (currentTime : ℤ) (anns : List Annot) : List Annot :=
  if shouldFilterByTime filterByTime showControls then
    visibleAnns currentTime anns
  else
    anns

/-! ## Claim C4: inclusive visibility boundaries -/

/-- A concrete annotation with the time range `[1000, 2000]` used by the
boundary scenario of the spec. -/
def annRange1000to2000 : Annot :=
  { id := "a1", step_id := "s1", t_start_ms := 1000, t_end_ms := 2000,
    kind := AnnKind.arrow, x := 1/2, y := 1/2, angle := some 0,
    text := none, style := none }

/-- C4: the visibility filter is inclusive on both boundaries: an
annotation is in the visible set exactly when `t_start_ms ≤ t ≤ t_end_ms`;
for the range `[1000, 2000]`, `t = 500` excludes it, `t = 1500` and
`t = 2000` include it, and `t = 2001` excludes it. -/
theorem visibleAnns_mem_iff_and_boundaries (anns : List Annot) (ann : Annot) (t : ℤ) :
    (ann ∈ visibleAnns t anns ↔ ann ∈ anns ∧ ann.t_start_ms ≤ t ∧ t ≤ ann.t_end_ms)
    ∧ annRange1000to2000 ∉ visibleAnns 500 [annRange1000to2000]
    ∧ annRange1000to2000 ∈ visibleAnns 1500 [annRange1000to2000]
    ∧ annRange1000to2000 ∈ visibleAnns 2000 [annRange1000to2000]
    ∧ annRange1000to2000 ∉ visibleAnns 2001 [annRange1000to2000] := by
  refine ⟨?_, ?_, ?_, ?_, ?_⟩ <;>
    simp [visibleAnns, List.mem_filter, and_assoc, annRange1000to2000]

/-! ## Claim C9: the coordinate normalizer is an exact inverse pair -/

/-- C9: for every pixel coordinate and positive surface dimensions,
`normToPixel (pixelToNorm p w) w = p` (exactly, over rationals), on both
axes. -/
theorem normToPixel_pixelToNorm_roundtrip (px py w h : ℚ)
    (hw : 0 < w) (hh : 0 < h) :
    normToPixel (pixelToNorm px w) w = px
    ∧ normToPixel (pixelToNorm py h) h = py := by
  constructor
  · exact div_mul_cancel₀ px (ne_of_gt hw)
  · exact div_mul_cancel₀ py (ne_of_gt hh)

/-- Witness for C9 at a concrete input: pixel point `(37, 11)` on a
`160 × 90` surface round-trips exactly. -/
theorem normToPixel_pixelToNorm_roundtrip_witness :
    (0 : ℚ) < 160 ∧ (0 : ℚ) < 90
    ∧ (normToPixel (pixelToNorm 37 160) 160 = 37
       ∧ normToPixel (pixelToNorm 11 90) 90 = 11) :=
  ⟨by norm_num, by norm_num,
   normToPixel_pixelToNorm_roundtrip 37 11 160 90 (by norm_num) (by norm_num)⟩

/-! ## Drag handlers (src/unnamed/part_005)

Two StepPlayer variants exist in the repository.  The SVG variant
(lines 595-637) records the press-time pointer origin and the press-time
annotation position and recomputes the position from them on every move;
the konva variant (lines 130-158) adds the delta since the *previous* move
to the annotation's *current* position and then resets its stored pointer
to the current one, i.e. it accumulates per-move deltas. -/

/-- Press-time drag state of the SVG variant (`dragStateRef`, lines
416-423 / 605-612): pointer origin and annotation position at press. -/
structure DragSt where
  annotationId : String
  startX : ℚ
  startY : ℚ
  startAnnX : ℚ
  startAnnY : ℚ
deriving DecidableEq, Repr

/-- One move of the SVG drag handler `handleAnnotationMouseMove`
(lines 617-637): the new position is the press-time position plus the
normalized delta from the fixed press-time origin, clamped to [0,1]. -/
def svgDragMove (w h : ℚ) (ds : DragSt) (p : ℚ × ℚ) : ℚ × ℚ :=
  (clamp01 (ds.startAnnX + pixelToNorm (p.1 - ds.startX) w),
   clamp01 (ds.startAnnY + pixelToNorm (p.2 - ds.startY) h))

/-- The SVG drag position after a whole sequence of moves: each move
overwrites the position, computed only from the press-time state and the
current pointer. -/
def svgDragRun (w h : ℚ) (ds : DragSt) (moves : List (ℚ × ℚ)) : ℚ × ℚ :=
  moves.foldl (fun _ p => svgDragMove w h ds p) (ds.startAnnX, ds.startAnnY)

/-- One move of the konva drag handler `handleAnnotationDrag`
(lines 137-158): state is (current annotation position, last pointer
position); the handler adds the delta since the last pointer to the
current position, clamps, and then sets `dragStartRef.current = pointerPos`. -/
def konvaDragStep (w h : ℚ) (st : (ℚ × ℚ) × (ℚ × ℚ)) (p : ℚ × ℚ) :
    (ℚ × ℚ) × (ℚ × ℚ) :=
  ((clamp01 (st.1.1 + (p.1 - st.2.1) / w), clamp01 (st.1.2 + (p.2 - st.2.2) / h)), p)

/-- The konva drag position after a sequence of moves, starting from the
annotation position `a` and press pointer `q` recorded by
`handleAnnotationDragStart` (lines 130-135). -/
def konvaDragRun (w h : ℚ) (a q : ℚ × ℚ) (moves : List (ℚ × ℚ)) : ℚ × ℚ :=
  (moves.foldl (konvaDragStep w h) (a, q)).1

/-! ## Claim C8: drags recompute from the fixed press-time origin -/

theorem clamp01_nonneg (v : ℚ) : 0 ≤ clamp01 v := le_max_left 0 _

theorem clamp01_le_one (v : ℚ) : clamp01 v ≤ 1 :=
  max_le (by norm_num) (min_le_left 1 v)

/-- C8 counterexample: the konva drag handler accumulates per-move deltas
instead of recomputing from the fixed press-time origin.  On a 100×100
surface, annotation at x = 1/2, press pointer at (50, 50), moving the
pointer to (-10, 50) and back to (50, 50) leaves the konva position at
x = 3/5, while recomputing from the press-time origin (zero net delta)
gives x = 1/2. -/
theorem konvaDrag_drifts_from_origin :
    (konvaDragRun 100 100 (1/2, 1/2) (50, 50) [(-10, 50), (50, 50)]).1 = 3/5
    ∧ clamp01 (1/2 + pixelToNorm ((50 : ℚ) - 50) 100) = 1/2
    ∧ ((3 : ℚ)/5) ≠ 1/2 := by
  refine ⟨?_, ?_, by norm_num⟩ <;>
    simp [konvaDragRun, konvaDragStep, clamp01, pixelToNorm] <;> norm_num

/-- C8 as amended: in the SVG variant the position after any move sequence
equals the press-time position plus the normalized delta from the fixed
press-time pointer origin to the last pointer, clamped to [0,1] on both
axes (so it is history-independent and never drifts), and in both variants
every post-move position lies in [0,1]² — but the konva variant reaches
that position by accumulating successive per-move deltas. -/
theorem dragMoves_fixed_origin_and_bounded (w h : ℚ) (ds : DragSt)
    (a q : ℚ × ℚ) (moves : List (ℚ × ℚ)) (p : ℚ × ℚ) :
    svgDragRun w h ds (moves ++ [p]) = svgDragMove w h ds p
    ∧ (0 ≤ (svgDragMove w h ds p).1 ∧ (svgDragMove w h ds p).1 ≤ 1
       ∧ 0 ≤ (svgDragMove w h ds p).2 ∧ (svgDragMove w h ds p).2 ≤ 1)
    ∧ (0 ≤ (konvaDragRun w h a q (moves ++ [p])).1
       ∧ (konvaDragRun w h a q (moves ++ [p])).1 ≤ 1
       ∧ 0 ≤ (konvaDragRun w h a q (moves ++ [p])).2
       ∧ (konvaDragRun w h a q (moves ++ [p])).2 ≤ 1) := by
  refine ⟨?_, ⟨clamp01_nonneg _, clamp01_le_one _, clamp01_nonneg _, clamp01_le_one _⟩, ?_⟩
  · simp [svgDragRun, List.foldl_append]
  · have hrun : konvaDragRun w h a q (moves ++ [p])
        = (konvaDragStep w h (moves.foldl (konvaDragStep w h) (a, q)) p).1 := by
      simp [konvaDragRun, List.foldl_append]
    rw [hrun]
    exact ⟨clamp01_nonneg _, clamp01_le_one _, clamp01_nonneg _, clamp01_le_one _⟩

/-! ## Gesture state machine of the SVG StepPlayer (src/unnamed/part_005,
lines 369-924)

The component keeps four independent gesture reference cells
(`dragStateRef`, `rotateStateRef`, `panStateRef`, `pinchStateRef`), the
view transform (`scale`, `panOffset`), the selection callback target and
the annotations array (updated through `onAnnotationUpdate`).  The
`atan2deg` argument stands for the irrational
`Math.atan2(dy, dx) * (180 / Math.PI)`; it is only applied in edit mode. -/

/-- `rotateStateRef` (lines 426-432). -/
structure RotateSt where
  annotationId : String
  startAngle : ℚ
  startX : ℚ
  startY : ℚ
deriving DecidableEq, Repr

/-- `panStateRef` (lines 435-441). -/
structure PanSt where
  startX : ℚ
  startY : ℚ
  startOffsetX : ℚ
  startOffsetY : ℚ
deriving DecidableEq, Repr

/-- `pinchStateRef` (lines 444-449). -/
structure PinchSt where
  distance : ℚ
  scale : ℚ
  centerX : ℚ
  centerY : ℚ
deriving DecidableEq, Repr

/-- The mutable state of the SVG StepPlayer that the pointer handlers
read and write: view transform, the four gesture cells, the current
selection and the annotations of the open step. -/
structure PlayerState where
  scale : ℚ
  panOffsetX : ℚ
  panOffsetY : ℚ
  dragState : Option DragSt
  rotateState : Option RotateSt
  panState : Option PanSt
  pinchState : Option PinchSt
  selected : Option String
  anns : List Annot
deriving DecidableEq, Repr

/-- `getPointerPosition` (lines 562-592): undo the CSS transform
`scale(scale) translate(panOffset.x/scale, panOffset.y/scale)` applied to
the SVG layer; positions are taken relative to the SVG bounding rect. -/
def getPointerPosition (scale panX panY svgX svgY : ℚ) : ℚ × ℚ :=
  ((svgX - panX) / scale, (svgY - panY) / scale)

/-- `onAnnotationUpdate` for a position change, as implemented by the
editor page (`handleAnnotationUpdate`, page.tsx lines 446-455): map over
the step's annotations, merging the update into the matching id. -/
def annUpdatePos (anns : List Annot) (annId : String) (nx ny : ℚ) : List Annot :=
  anns.map fun a => if a.id == annId then { a with x := nx, y := ny } else a

/-- `onAnnotationUpdate` for an angle change (rotation). -/
def annUpdateAngle (anns : List Annot) (annId : String) (deg : ℚ) : List Annot :=
  anns.map fun a => if a.id == annId then { a with angle := some deg } else a

/-- `handleAnnotationMouseDown` (lines 595-615): early-return in view
mode, otherwise record the press-time pointer and annotation position in
`dragStateRef` and select the annotation. -/
def handleAnnotationMouseDown (viewMode : Bool) (s : PlayerState)
    (annId : String) (svgX svgY : ℚ) : PlayerState :=
  if viewMode then s
  else
    let pos := getPointerPosition s.scale s.panOffsetX s.panOffsetY svgX svgY
    match s.anns.find? (fun a => a.id == annId) with
    | none => s
    | some ann =>
        { s with
          dragState := some ⟨annId, pos.1, pos.2, ann.x, ann.y⟩,
          selected := some annId }

/-- `handleAnnotationMouseMove` (lines 617-637): no-op unless a drag is in
progress and not in view mode; otherwise recompute the position from the
press-time state. -/
def handleAnnotationMouseMove (viewMode : Bool) (w h : ℚ) (s : PlayerState)
    (svgX svgY : ℚ) : PlayerState :=
  match s.dragState with
  | none => s
  | some ds =>
      if viewMode then s
      else
        let pos := getPointerPosition s.scale s.panOffsetX s.panOffsetY svgX svgY
        let q := svgDragMove w h ds pos
        { s with anns := annUpdatePos s.anns ds.annotationId q.1 q.2 }

/-- `handleRotateMouseDown` (lines 645-667): early-return in view mode,
otherwise record the rotation start state. -/
def handleRotateMouseDown (atan2deg : ℚ → ℚ → ℚ) (viewMode : Bool)
    (w h : ℚ) (s : PlayerState) (annId : String) (svgX svgY : ℚ) : PlayerState :=
  if viewMode then s
  else
    let pos := getPointerPosition s.scale s.panOffsetX s.panOffsetY svgX svgY
    match s.anns.find? (fun a => a.id == annId) with
    | none => s
    | some ann =>
        let centerX := normToPixel ann.x w
        let centerY := normToPixel ann.y h
        let angle := atan2deg (pos.2 - centerY) (pos.1 - centerX)
        { s with rotateState := some ⟨annId, angle, pos.1, pos.2⟩ }

/-- `handleRotateMouseMove` (lines 670-686): no-op unless a rotation is in
progress and not in view mode; otherwise recompute the angle from the
annotation's current pixel center. -/
def handleRotateMouseMove (atan2deg : ℚ → ℚ → ℚ) (viewMode : Bool)
    (w h : ℚ) (s : PlayerState) (svgX svgY : ℚ) : PlayerState :=
  match s.rotateState with
  | none => s
  | some rs =>
      if viewMode then s
      else
        let pos := getPointerPosition s.scale s.panOffsetX s.panOffsetY svgX svgY
        match s.anns.find? (fun a => a.id == rs.annotationId) with
        | none => s
        | some ann =>
            let centerX := normToPixel ann.x w
            let centerY := normToPixel ann.y h
            let angle := atan2deg (pos.2 - centerY) (pos.1 - centerX)
            { s with anns := annUpdateAngle s.anns rs.annotationId angle }

/-- `handlePanStart` (lines 727-740): disabled in view mode and while a
drag or rotation is active. -/
def handlePanStart (viewMode : Bool) (s : PlayerState) (svgX svgY : ℚ) : PlayerState :=
  if viewMode || s.dragState.isSome || s.rotateState.isSome then s
  else
    let pos := getPointerPosition s.scale s.panOffsetX s.panOffsetY svgX svgY
    { s with
      panState := some ⟨pos.1 * s.scale, pos.2 * s.scale, s.panOffsetX, s.panOffsetY⟩ }

/-- `handlePanMove` (lines 742-757): no-op unless a pan is in progress. -/
def handlePanMove (s : PlayerState) (svgX svgY : ℚ) : PlayerState :=
  match s.panState with
  | none => s
  | some ps =>
      let pos := getPointerPosition s.scale s.panOffsetX s.panOffsetY svgX svgY
      { s with
        panOffsetX := ps.startOffsetX + (pos.1 * s.scale - ps.startX),
        panOffsetY := ps.startOffsetY + (pos.2 * s.scale - ps.startY) }

/-- `handlePinchStart` (lines 764-787): disabled in view mode; on a
two-touch start, record the touch distance, the current scale and the
midpoint.  The `Math.hypot` distance is carried in the event payload. -/
def handlePinchStart (viewMode : Bool) (s : PlayerState)
    (distance centerX centerY : ℚ) : PlayerState :=
  if viewMode then s
  else { s with pinchState := some ⟨distance, s.scale, centerX, centerY⟩ }

/-- `handlePinchMove` (lines 789-802): scale by the distance ratio,
clamped to `[0.5, 3]` by `Math.max(0.5, Math.min(3, newScale))`. -/
def handlePinchMove (s : PlayerState) (distance : ℚ) : PlayerState :=
  match s.pinchState with
  | none => s
  | some ps =>
      let newScale := distance / ps.distance * ps.scale
      { s with scale := max (1/2) (min 3 newScale) }

/-- The window-level `handleUp` (lines 707-711): clears drag, rotate and
pan state. -/
def handlePointerUp (s : PlayerState) : PlayerState :=
  { s with dragState := none, rotateState := none, panState := none }

/-- `handlePinchEnd` (lines 804-806). -/
def handlePinchEnd (s : PlayerState) : PlayerState :=
  { s with pinchState := none }

/-- `handleDoubleTap` (lines 808-811): reset zoom and pan; the handler is
attached to the container div, so it is reachable in every mode. -/
def handleDoubleTap (s : PlayerState) : PlayerState :=
  { s with scale := 1, panOffsetX := 0, panOffsetY := 0 }

/-- SVG `onClick` (lines 917-923): early-return in view mode, deselect on
a click that hit empty canvas. -/
def handleSvgClick (viewMode : Bool) (s : PlayerState) (onEmpty : Bool) : PlayerState :=
  if viewMode then s
  else if onEmpty then { s with selected := none }
  else s

/-- Pointer/touch lifecycle events fed to the StepPlayer handlers.  Pinch
events carry the precomputed two-touch distance and midpoint. -/
inductive PEvent where
  | annDown (annId : String) (x y : ℚ)
  | rotDown (annId : String) (x y : ℚ)
  | panDown (x y : ℚ)
  | pointerMove (x y : ℚ)
  | pointerUp
  | pinchDown (distance cx cy : ℚ)
  | pinchMove (distance : ℚ)
  | pinchUp
  | clickEmpty
  | doubleTap
deriving DecidableEq, Repr

/-- Dispatch one event to the handlers exactly as the component wires them
up: `pointerMove` is the window `handleMove` (lines 694-705), which feeds
the drag, rotate and pan handlers in that order, each guarded by its own
state cell. -/
def step (atan2deg : ℚ → ℚ → ℚ) (viewMode : Bool) (w h : ℚ)
    (s : PlayerState) (e : PEvent) : PlayerState :=
  match e with
  | PEvent.annDown annId x y => handleAnnotationMouseDown viewMode s annId x y
  | PEvent.rotDown annId x y => handleRotateMouseDown atan2deg viewMode w h s annId x y
  | PEvent.panDown x y => handlePanStart viewMode s x y
  | PEvent.pointerMove x y =>
      handlePanMove
        (handleRotateMouseMove atan2deg viewMode w h
          (handleAnnotationMouseMove viewMode w h s x y) x y) x y
  | PEvent.pointerUp => handlePointerUp s
  | PEvent.pinchDown d cx cy => handlePinchStart viewMode s d cx cy
  | PEvent.pinchMove d => handlePinchMove s d
  | PEvent.pinchUp => handlePinchEnd s
  | PEvent.clickEmpty => handleSvgClick viewMode s true
  | PEvent.doubleTap => handleDoubleTap s

/-- Run a whole pointer-event sequence through the handlers. -/
def runEvents (atan2deg : ℚ → ℚ → ℚ) (viewMode : Bool) (w h : ℚ)
    (s : PlayerState) (events : List PEvent) : PlayerState :=
  events.foldl (step atan2deg viewMode w h) s

/-! ## Claim C3: what view mode disables -/

/-- The component's initial interaction state: `useState(1)` for scale,
`useState({x:0,y:0})` for the pan offset, all gesture refs `null`. -/
def initPlayer (sel : Option String) (anns : List Annot) : PlayerState :=
  { scale := 1, panOffsetX := 0, panOffsetY := 0,
    dragState := none, rotateState := none, panState := none,
    pinchState := none, selected := sel, anns := anns }

/-- An annotation sitting in a publicly viewed step, used to exercise the
view-mode gates on concrete event sequences. -/
def viewerAnn : Annot :=
  { id := "v1", step_id := "s9", t_start_ms := 0, t_end_ms := 5000,
    kind := AnnKind.label, x := 1/4, y := 3/4, angle := none,
    text := some "Label", style := none }

/-- C3 counterexample: in view mode (`filterAnnotationsByTime` set) the
pan and pinch handlers are also disabled, not left active.  A two-touch
pinch from distance 100 to 200 leaves the zoom at 1 in view mode (the
same gesture yields zoom 2 in edit mode), and a pan drag leaves the pan
offset at 0 in view mode (20 in edit mode). -/
theorem viewMode_pinch_and_pan_disabled :
    (runEvents (fun _ _ => 0) true 160 90 (initPlayer none [viewerAnn])
        [PEvent.pinchDown 100 0 0, PEvent.pinchMove 200]).scale = 1
    ∧ (runEvents (fun _ _ => 0) false 160 90 (initPlayer none [viewerAnn])
        [PEvent.pinchDown 100 0 0, PEvent.pinchMove 200]).scale = 2
    ∧ (runEvents (fun _ _ => 0) true 160 90 (initPlayer none [viewerAnn])
        [PEvent.panDown 10 10, PEvent.pointerMove 30 10]).panOffsetX = 0
    ∧ (runEvents (fun _ _ => 0) false 160 90 (initPlayer none [viewerAnn])
        [PEvent.panDown 10 10, PEvent.pointerMove 30 10]).panOffsetX = 20
    ∧ (1 : ℚ) ≠ 2 := by
  refine ⟨?_, ?_, ?_, ?_, by norm_num⟩ <;>
    norm_num [runEvents, step, handlePinchStart, handlePinchMove, handlePanStart,
      handlePanMove, handleAnnotationMouseMove, handleRotateMouseMove,
      initPlayer, getPointerPosition]

/-- In view mode every handler leaves an idle state (identity transform,
no active gesture cell) unchanged. -/
theorem step_viewMode_inert (f : ℚ → ℚ → ℚ) (w h : ℚ) (s : PlayerState) (e : PEvent)
    (h1 : s.scale = 1) (h2 : s.panOffsetX = 0) (h3 : s.panOffsetY = 0)
    (h4 : s.dragState = none) (h5 : s.rotateState = none)
    (h6 : s.panState = none) (h7 : s.pinchState = none) :
    step f true w h s e = s := by
  rcases s with ⟨sc, px, py, dg, rt, pn, pc, sel, anns⟩
  dsimp only at h1 h2 h3 h4 h5 h6 h7
  subst h1 h2 h3 h4 h5 h6 h7
  cases e <;>
    simp [step, handleAnnotationMouseDown, handleRotateMouseDown, handlePanStart,
      handleAnnotationMouseMove, handleRotateMouseMove, handlePanMove,
      handlePointerUp, handlePinchStart, handlePinchMove, handlePinchEnd,
      handleDoubleTap, handleSvgClick]

/-- C3 as amended: the view-mode flag disables not only the
mutation-producing transitions (drag, rotate) but the whole gesture layer:
starting from the initial interaction state, no pointer-event sequence in
view mode changes the annotations, the selection, the view transform or
any gesture cell — the state is left exactly as it was.  Playback remains
available only through the video element, which sits outside the gesture
layer. -/
theorem viewMode_disables_all_gestures (f : ℚ → ℚ → ℚ) (w h : ℚ)
    (events : List PEvent) (s : PlayerState)
    (h1 : s.scale = 1) (h2 : s.panOffsetX = 0) (h3 : s.panOffsetY = 0)
    (h4 : s.dragState = none) (h5 : s.rotateState = none)
    (h6 : s.panState = none) (h7 : s.pinchState = none) :
    runEvents f true w h s events = s := by
  induction events with
  | nil => rfl
  | cons e es ih =>
      have hstep := step_viewMode_inert f w h s e h1 h2 h3 h4 h5 h6 h7
      calc runEvents f true w h s (e :: es)
          = runEvents f true w h (step f true w h s e) es := rfl
        _ = runEvents f true w h s es := by rw [hstep]
        _ = s := ih

/-- Witness for C3's amended theorem: a concrete drag-rotate-pan-pinch
barrage in view mode leaves the initial state untouched. -/
theorem viewMode_disables_all_gestures_witness :
    runEvents (fun _ _ => 0) true 160 90 (initPlayer none [viewerAnn])
      [PEvent.annDown "v1" 5 5, PEvent.pointerMove 50 50,
       PEvent.rotDown "v1" 9 9, PEvent.pointerMove 80 10, PEvent.pointerUp,
       PEvent.panDown 10 10, PEvent.pointerMove 30 10,
       PEvent.pinchDown 100 0 0, PEvent.pinchMove 400, PEvent.pinchUp,
       PEvent.clickEmpty, PEvent.doubleTap]
      = initPlayer none [viewerAnn] :=
  viewMode_disables_all_gestures _ _ _ _ _ rfl rfl rfl rfl rfl rfl rfl

/-! ## Identifier promotion (src/app/(app)/editor/[sopId]/page.tsx,
handleAddAnnotation lines 323-444)

On creation the annotation is appended to the step's list with a local
nanoid.  When the remote insert succeeds with a server-issued UUID, the
code runs `setAnnotations(prev => ...map(ann => ann.id === newAnn.id ?
annotationWithDbId : ann))` where `annotationWithDbId = { ...newAnn,
id: data.id }` — and touches nothing else: neither `selectedAnnotationId`
(page.tsx line 28) nor the StepPlayer's in-progress gesture state is
updated. -/

/-- Append the freshly created annotation: `[...stepAnnotations, newAnn]`
(page.tsx line 369). -/
def insertAnnot (anns : List Annot) (newAnn : Annot) : List Annot :=
  anns ++ [newAnn]

/-- The store part of the promotion (page.tsx lines 420-428): every entry
whose id equals the local id of `newAnn` is replaced by
`{ ...newAnn, id := dbId }`. -/
def promoteInStep (newAnn : Annot) (dbId : String) (anns : List Annot) : List Annot :=
  anns.map fun ann => if ann.id == newAnn.id then { newAnn with id := dbId } else ann

/-- `annotations.find((a) => a.id === id)`, the lookup used throughout the
player and editor. -/
def findAnn (annId : String) (anns : List Annot) : Option Annot :=
  anns.find? fun a => a.id == annId

/-- `handleAnnotationDelete` (page.tsx lines 507-511):
`currentAnnotations.filter((ann) => ann.id !== id)`. -/
def deleteAnnot (anns : List Annot) (annId : String) : List Annot :=
  anns.filter fun ann => ann.id != annId

/-- Every live reference to an annotation id at promotion time: the store
entry, the current selection (`selectedAnnotationId`), and the annotation
id held by an in-progress gesture. -/
structure EditorRefs where
  anns : List Annot
  selectedAnnotationId : Option String
  gestureAnnotationId : Option String
deriving DecidableEq, Repr

/-- The complete state transition the code performs when the remote store
returns the server id: only `setAnnotations` is invoked (page.tsx lines
417-428); the selection and gesture references are left as they are. -/
def promotionTransition (s : EditorRefs) (newAnn : Annot) (dbId : String) : EditorRefs :=
  { s with anns := promoteInStep newAnn dbId s.anns }

/-! ## Claim C1: promotion must swap every reference atomically -/

/-- The locally created annotation of the C1 scenario, with local id "L1". -/
def localAnnL1 : Annot :=
  { id := "L1", step_id := "s1", t_start_ms := 0, t_end_ms := 4000,
    kind := AnnKind.arrow, x := 1/2, y := 1/2, angle := some 0,
    text := none, style := some ⟨some "#00ff00", none, some 5⟩ }

/-- C1 at the failing input: the annotation with local id "L1" is selected
and mid-gesture when the remote store returns id "R1".  The promotion
swaps only the store entry: afterwards the store knows only "R1", while
the selection and the gesture still hold "L1" — the state is left
half-migrated, and a subsequent delete through the stale selected id is a
silent no-op, exactly the dangling-reference failure the spec warns about. -/
theorem promotion_leaves_selection_and_gesture_stale :
    (promotionTransition ⟨insertAnnot [] localAnnL1, some "L1", some "L1"⟩
        localAnnL1 "R1").anns.map Annot.id = ["R1"]
    ∧ (promotionTransition ⟨insertAnnot [] localAnnL1, some "L1", some "L1"⟩
        localAnnL1 "R1").selectedAnnotationId = some "L1"
    ∧ (promotionTransition ⟨insertAnnot [] localAnnL1, some "L1", some "L1"⟩
        localAnnL1 "R1").gestureAnnotationId = some "L1"
    ∧ findAnn "L1" (promotionTransition ⟨insertAnnot [] localAnnL1, some "L1", some "L1"⟩
        localAnnL1 "R1").anns = none
    ∧ deleteAnnot (promotionTransition ⟨insertAnnot [] localAnnL1, some "L1", some "L1"⟩
        localAnnL1 "R1").anns "L1"
      = (promotionTransition ⟨insertAnnot [] localAnnL1, some "L1", some "L1"⟩
        localAnnL1 "R1").anns := by
  refine ⟨?_, rfl, rfl, ?_, ?_⟩ <;>
    simp [promotionTransition, promoteInStep, insertAnnot, findAnn, deleteAnnot, localAnnL1]

/-! ## Claim C2: promotion preserves every field except id -/

/-- C2: if annotation `A` was inserted with local id `L` and no stored
annotation carries the server id `R`, then after the promotion the lookup
by `R` finds a record agreeing with `A` on step_id, t_start_ms, t_end_ms,
kind, x, y, angle, text and style, with only the id changed to `R`. -/
theorem promote_preserves_all_but_id (A : Annot) (L R : String)
    (anns : List Annot) (_hL : A.id = L)
    (hfresh : ∀ b ∈ insertAnnot anns A, b.id ≠ R) :
    ∃ B, findAnn R (promoteInStep A R (insertAnnot anns A)) = some B
      ∧ B.id = R
      ∧ B.step_id = A.step_id
      ∧ B.t_start_ms = A.t_start_ms
      ∧ B.t_end_ms = A.t_end_ms
      ∧ B.kind = A.kind
      ∧ B.x = A.x
      ∧ B.y = A.y
      ∧ B.angle = A.angle
      ∧ B.text = A.text
      ∧ B.style = A.style := by
  refine ⟨{ A with id := R }, ?_, rfl, rfl, rfl, rfl, rfl, rfl, rfl, rfl, rfl, rfl⟩
  have hmem : ∃ b ∈ insertAnnot anns A, b.id = A.id :=
    ⟨A, by simp [insertAnnot], rfl⟩
  revert hfresh hmem
  generalize insertAnnot anns A = l
  intro hfresh hmem
  induction l with
  | nil => simp at hmem
  | cons a rest ih =>
      by_cases ha : a.id = A.id
      · simp [promoteInStep, findAnn, ha]
      · have hane : a.id ≠ R := hfresh a (by simp)
        have hmem2 : ∃ b ∈ rest, b.id = A.id := by
          rcases hmem with ⟨b, hb, hbid⟩
          rcases List.mem_cons.mp hb with rfl | hbr
          · exact absurd hbid ha
          · exact ⟨b, hbr, hbid⟩
        have ih2 := ih (fun b hb => hfresh b (List.mem_cons_of_mem a hb)) hmem2
        simpa [promoteInStep, findAnn, ha, hane] using ih2

/-- Witness for C2 at a concrete input: the C1 annotation, inserted into an
empty step and promoted from "L1" to "R1". -/
theorem promote_preserves_all_but_id_witness :
    localAnnL1.id = "L1"
    ∧ (∀ b ∈ insertAnnot [] localAnnL1, b.id ≠ "R1")
    ∧ ∃ B, findAnn "R1" (promoteInStep localAnnL1 "R1" (insertAnnot [] localAnnL1)) = some B
      ∧ B.id = "R1"
      ∧ B.step_id = localAnnL1.step_id
      ∧ B.t_start_ms = localAnnL1.t_start_ms
      ∧ B.t_end_ms = localAnnL1.t_end_ms
      ∧ B.kind = localAnnL1.kind
      ∧ B.x = localAnnL1.x
      ∧ B.y = localAnnL1.y
      ∧ B.angle = localAnnL1.angle
      ∧ B.text = localAnnL1.text
      ∧ B.style = localAnnL1.style :=
  ⟨rfl, by simp [insertAnnot, localAnnL1],
   promote_preserves_all_but_id localAnnL1 "L1" "R1" [] rfl
     (by simp [insertAnnot, localAnnL1])⟩

/-! ## TimeBar range editing (src/components/TimeBar.tsx) and the
annotation creation schema (src/lib/idb.ts, lines 129-144) -/

/-- The start-handle drag (TimeBar.tsx lines 76-83):
`Math.min(clampedTime, Math.max(0, endTime - 100))`. -/
def dragStartHandle (clampedTime endTime : ℤ) : ℤ :=
  min clampedTime (max 0 (endTime - 100))

/-- The end-handle drag (TimeBar.tsx lines 84-91):
`Math.max(clampedTime, Math.min(duration, startTime + 100))`. -/
def dragEndHandle (clampedTime startTime duration : ℤ) : ℤ :=
  max clampedTime (min duration (startTime + 100))

/-- The `Set Start = …` button (TimeBar.tsx lines 449-458):
`onStartTimeChange(currentTime)`, with no comparison against the end. -/
def setStartButton (currentTime : ℤ) : ℤ := currentTime

/-- The `Set End = …` button (TimeBar.tsx lines 459-468):
`onEndTimeChange(currentTime)`, with no comparison against the start. -/
def setEndButton (currentTime : ℤ) : ℤ := currentTime

/-- Annotation creation from the current range (`handleAddAnnotation`,
page.tsx lines 338-351): `t_start_ms := startTime`, `t_end_ms := endTime`,
centred at (0.5, 0.5) with the kind-dependent defaults. -/
def createAnnotFromRange (localId stepId : String) (kind : AnnKind)
    (startTime endTime : ℤ) : Annot :=
  { id := localId, step_id := stepId,
    t_start_ms := startTime, t_end_ms := endTime, kind := kind,
    x := 1/2, y := 1/2,
    angle := if kind = AnnKind.arrow then some 0 else none,
    text := if kind = AnnKind.label then some "Label" else none,
    style :=
      if kind = AnnKind.arrow then some ⟨some "#00ff00", none, some 5⟩
      else some ⟨some "#ffffff", some 20, none⟩ }

/-- The zod `createAnnotationSchema` (idb.ts lines 129-144): each of
`t_start_ms`, `t_end_ms` is independently a non-negative integer, `x` and
`y` lie in [0,1], `text` is at most 100 characters; there is no
cross-field constraint between `t_start_ms` and `t_end_ms`. -/
def createAnnotSchemaCheck (a : Annot) : Bool :=
  decide (0 ≤ a.t_start_ms) && decide (0 ≤ a.t_end_ms)
    && decide (0 ≤ a.x) && decide (a.x ≤ 1)
    && decide (0 ≤ a.y) && decide (a.y ≤ 1)
    && (match a.text with
        | none => true
        | some t => decide (t.length ≤ 100))

/-! ## Claim C5: the `t_start_ms ≤ t_end_ms` invariant -/

/-- C5 at the failing input: with the playhead at 2000 ms and the end
handle at 1000 ms, pressing `Set Start` moves the start to 2000 with no
clamp against the end, and the annotation then created from the range
carries `t_start_ms = 2000 > t_end_ms = 1000`; the creation schema
accepts it, since it checks the two bounds only independently.  (The
range-handle drags, by contrast, do clamp against the opposite handle.) -/
theorem setStart_button_breaks_time_invariant :
    setStartButton 2000 = 2000
    ∧ (createAnnotFromRange "n1" "s1" AnnKind.arrow (setStartButton 2000) 1000).t_start_ms = 2000
    ∧ (createAnnotFromRange "n1" "s1" AnnKind.arrow (setStartButton 2000) 1000).t_end_ms = 1000
    ∧ ¬((createAnnotFromRange "n1" "s1" AnnKind.arrow (setStartButton 2000) 1000).t_start_ms
        ≤ (createAnnotFromRange "n1" "s1" AnnKind.arrow (setStartButton 2000) 1000).t_end_ms)
    ∧ createAnnotSchemaCheck (createAnnotFromRange "n1" "s1" AnnKind.arrow (setStartButton 2000) 1000) = true := by
  refine ⟨rfl, rfl, rfl, by norm_num [createAnnotFromRange, setStartButton], ?_⟩
  norm_num [createAnnotFromRange, createAnnotSchemaCheck, setStartButton]
  all_goals rfl

/-! ## The sign-upload endpoint (src/app/api/videos/sign-upload/route.ts
and its validating revision src/unnamed/part_002) -/

/-- Bool test that `pat` is a prefix of `s` (character lists). -/
def seqStarts : List Char → List Char → Bool
  | [], _ => true
  | _ :: _, [] => false
  | a :: as, b :: bs => a == b && seqStarts as bs

/-- Bool test that `pat` occurs inside `s` (character lists). -/
def seqContains (s pat : List Char) : Bool :=
  match s with
  | [] => pat.isEmpty
  | _ :: rest => seqStarts pat s || seqContains rest pat

/-- `filename.includes(pat)`. -/
def strContains (s pat : String) : Bool := seqContains s.toList pat.toList

/-- `filename.endsWith(suf)`. -/
def strEndsWith (s suf : String) : Bool :=
  seqStarts suf.toList.reverse s.toList.reverse

/-- Outcome of a POST to the sign-upload endpoint: either the storage path
a signed upload URL is created for, or an error status with no URL. -/
inductive RouteResult where
  | ok (storagePath : String)
  | err (status : ℕ)
deriving DecidableEq, Repr

/-- `POST` of `src/app/api/videos/sign-upload/route.ts` (lines 4-40): only
presence of `filename` and `contentType` is checked; any non-empty
filename reaches `createSignedUploadUrl` under
`sop-videos/${filename}`. -/
def signUploadRouteTs (filename contentType : String) : RouteResult :=
  if filename.isEmpty || contentType.isEmpty then RouteResult.err 400
  else RouteResult.ok ("sop-videos/" ++ filename)

/-- `POST` of the validating revision (src/unnamed/part_002, lines 4-65):
requires an authenticated user, then rejects filenames that do not end in
`.mp4`, contain `/`, `\`, or `..`, or exceed 255 characters, before
creating the signed URL under `${user.id}/${filename}`. -/
def signUploadValidated (authed : Bool) (userId filename contentType : String) :
    RouteResult :=
  if !authed then RouteResult.err 401
  else if filename.isEmpty || contentType.isEmpty then RouteResult.err 400
  else if !(strEndsWith filename ".mp4") || strContains filename "/"
      || strContains filename "\\" || strContains filename ".."
      || decide (filename.length > 255) then RouteResult.err 400
  else RouteResult.ok (userId ++ "/" ++ filename)

/-! ## Claim C6: server-side filename validation -/

/-- C6 at the failing input: the endpoint at
`src/app/api/videos/sign-upload/route.ts` performs no filename
validation: for `filename = "../../etc/evil.txt"` — which contains path
separators and `..` and is not a `.mp4` — it still mints a signed upload
URL for `sop-videos/../../etc/evil.txt`.  The validating revision of the
route (src/unnamed/part_002) rejects the same request with status 400 and
creates no URL. -/
theorem signUpload_route_mints_url_without_validation :
    signUploadRouteTs "../../etc/evil.txt" "video/mp4"
      = RouteResult.ok "sop-videos/../../etc/evil.txt"
    ∧ strContains "../../etc/evil.txt" ".." = true
    ∧ strContains "../../etc/evil.txt" "/" = true
    ∧ strEndsWith "../../etc/evil.txt" ".mp4" = false
    ∧ signUploadValidated true "user1" "../../etc/evil.txt" "video/mp4"
      = RouteResult.err 400 := by
  refine ⟨rfl, ?_, ?_, ?_, ?_⟩ <;> decide

/-! ## Local draft store (src/lib/idb.ts, lines 1-101)

The `drafts` object store is keyed by `id` with an index
`by-lastModified` on the `lastModified` field; the `videos` store is
keyed by `stepId`.  Records are modelled as lists; `put` replaces the
record with the same key; per the IndexedDB specification, `getAll` on an
index returns records in ascending index-key order.  Blob contents are
opaque to all of this code and are modelled as string handles. -/

/-- `DraftStep` (idb.ts lines 193-204). -/
structure DraftStepRec where
  id : String
  idx : ℤ
  title : String
  instructions : Option String
  videoBlob : Option String
  videoPath : Option String
  duration_ms : Option ℤ
  annotations : List Annot
  uploadStatus : Option String
  uploadProgress : Option ℚ
deriving DecidableEq, Repr

/-- `DraftSOP` (idb.ts lines 185-191). -/
structure DraftSOP where
  id : String
  title : String
  description : Option String
  steps : List DraftStepRec
  lastModified : ℤ
deriving DecidableEq, Repr

/-- `db.put('drafts', …)` on the store with `keyPath: 'id'`. -/
def dbPutDraft (store : List DraftSOP) (d : DraftSOP) : List DraftSOP :=
  if store.any (fun r => r.id == d.id) then
    store.map fun r => if r.id == d.id then d else r
  else store ++ [d]

/-- `saveDraft` (idb.ts lines 34-40): upsert the document, always
stamping the current time as `lastModified`. -/
def saveDraft (store : List DraftSOP) (sop : DraftSOP) (now : ℤ) : List DraftSOP :=
  dbPutDraft store { sop with lastModified := now }

/-- The `by-lastModified` index order. -/
def draftLE (a b : DraftSOP) : Prop := a.lastModified ≤ b.lastModified

instance : DecidableRel draftLE := fun a b => Int.decLe a.lastModified b.lastModified

instance : IsTotal DraftSOP draftLE := ⟨fun a b => Int.le_total a.lastModified b.lastModified⟩

instance : IsTrans DraftSOP draftLE := ⟨fun _ _ _ hab hbc => le_trans hab hbc⟩

/-- `listDrafts` (idb.ts lines 47-51): `getAll()` on the
`by-lastModified` index, i.e. the records in ascending `lastModified`
order. -/
def listDrafts (store : List DraftSOP) : List DraftSOP :=
  store.insertionSort draftLE

/-- Bool check that a draft list is in ascending `lastModified` order. -/
def ascByLastModified : List DraftSOP → Bool
  | [] => true
  | [_] => true
  | a :: b :: rest =>
      decide (a.lastModified ≤ b.lastModified) && ascByLastModified (b :: rest)

/-- Bool check that a draft list is in descending `lastModified` order
(what the claim asserts `listDrafts` returns). -/
def descByLastModified : List DraftSOP → Bool
  | [] => true
  | [_] => true
  | a :: b :: rest =>
      decide (b.lastModified ≤ a.lastModified) && descByLastModified (b :: rest)

/-! ## Claim C7: the order of `listDrafts` -/

/-- A first draft document for the C7 scenario. -/
def draftDocA : DraftSOP :=
  { id := "sopA", title := "A", description := none, steps := [], lastModified := 0 }

/-- A second draft document for the C7 scenario. -/
def draftDocB : DraftSOP :=
  { id := "sopB", title := "B", description := none, steps := [], lastModified := 0 }

/-- C7 counterexample: save draft A at time 100 and draft B at time 200;
`listDrafts` returns them in ascending `lastModified` order `[100, 200]`
— oldest first — not in the descending (most-recent-first) order the
claim states, and the returned list fails the descending-order check. -/
theorem listDrafts_not_descending :
    (listDrafts (saveDraft (saveDraft [] draftDocA 100) draftDocB 200)).map
        DraftSOP.lastModified = [100, 200]
    ∧ descByLastModified
        (listDrafts (saveDraft (saveDraft [] draftDocA 100) draftDocB 200)) = false := by
  constructor <;> rfl

theorem ascByLastModified_of_sorted (l : List DraftSOP)
    (h : List.Sorted draftLE l) : ascByLastModified l = true := by
  induction l with
  | nil => rfl
  | cons a rest ih =>
      cases rest with
      | nil => rfl
      | cons b rest2 =>
          rw [List.sorted_cons] at h
          have hab : draftLE a b := h.1 b (List.mem_cons_self b rest2)
          simp [ascByLastModified, ih h.2]
          exact hab

/-- C7 as amended: `listDrafts` returns all stored draft documents
ordered by last-modified **ascending** (least recently modified first):
the result passes the ascending-order check and has exactly the store's
members. -/
theorem listDrafts_ascending_and_complete (store : List DraftSOP) (d : DraftSOP) :
    ascByLastModified (listDrafts store) = true
    ∧ (d ∈ listDrafts store ↔ d ∈ store) :=
  ⟨ascByLastModified_of_sorted _ (List.sorted_insertionSort draftLE store),
   (List.perm_insertionSort draftLE store).mem_iff⟩

/-! ## Pending-video blob store (src/lib/idb.ts, lines 58-101) -/

/-- A record of the `videos` store (idb.ts lines 10-13):
`{ blob, stepId, sopId, uploaded }`, keyed by `stepId`. -/
structure VideoRec where
  stepId : String
  sopId : String
  blob : String
  uploaded : Bool
deriving DecidableEq, Repr

/-- `db.get('videos', stepId)`. -/
def videosGet (store : List VideoRec) (stepId : String) : Option VideoRec :=
  store.find? fun v => v.stepId == stepId

/-- `db.put('videos', …)` on the store with `keyPath: 'stepId'`. -/
def videosPut (store : List VideoRec) (v : VideoRec) : List VideoRec :=
  if store.any (fun r => r.stepId == v.stepId) then
    store.map fun r => if r.stepId == v.stepId then v else r
  else store ++ [v]

/-- `markVideoUploaded` (idb.ts lines 80-86): get the record; if absent do
nothing; otherwise put it back with `uploaded: true`. -/
def markVideoUploaded (store : List VideoRec) (stepId : String) : List VideoRec :=
  match videosGet store stepId with
  | none => store
  | some v => videosPut store { v with uploaded := true }

/-! ## Claim C10: `markVideoUploaded` on a missing or present record -/

theorem videosGet_map_replace_same (store : List VideoRec) (sid : String)
    (w : VideoRec) (hw : w.stepId = sid)
    (hex : videosGet store sid ≠ none) :
    videosGet (store.map fun r => if r.stepId == w.stepId then w else r) sid
      = some w := by
  induction store with
  | nil => simp [videosGet] at hex
  | cons r rest ih =>
      by_cases hr : r.stepId = sid
      · simp [videosGet, hr, hw]
      · have hex2 : videosGet rest sid ≠ none := by
          simpa [videosGet, hr] using hex
        simpa [videosGet, hr, hw] using ih hex2

theorem videosGet_map_replace_other (store : List VideoRec) (sid other : String)
    (w : VideoRec) (hw : w.stepId = sid) (hother : other ≠ sid) :
    videosGet (store.map fun r => if r.stepId == w.stepId then w else r) other
      = videosGet store other := by
  have hsno : sid ≠ other := Ne.symm hother
  induction store with
  | nil => rfl
  | cons r rest ih =>
      simp only [videosGet, List.map_cons] at ih ⊢
      by_cases hr : r.stepId = sid
      · have hmap : (if r.stepId == w.stepId then w else r) = w := by simp [hw, hr]
        rw [hmap, List.find?_cons_of_neg _ (by simp [hw, hsno]),
            List.find?_cons_of_neg _ (by simp [hr, hsno])]
        exact ih
      · have hmap : (if r.stepId == w.stepId then w else r) = r := by simp [hw, hr]
        by_cases hro : r.stepId = other
        · rw [hmap, List.find?_cons_of_pos _ (by simp [hro]),
              List.find?_cons_of_pos _ (by simp [hro])]
        · rw [hmap, List.find?_cons_of_neg _ (by simp [hro]),
              List.find?_cons_of_neg _ (by simp [hro])]
          exact ih

/-- C10: calling `markVideoUploaded` with a step id for which no record
exists leaves the videos store completely unchanged (and, being a total
function, raises no error); when a record `v` does exist, afterwards the
record under that key is `v` with only `uploaded` set to `true` — blob,
stepId and sopId preserved — and every other key maps to exactly what it
did before. -/
theorem markVideoUploaded_spec (store : List VideoRec) (sid : String) :
    (videosGet store sid = none → markVideoUploaded store sid = store)
    ∧ (∀ v, videosGet store sid = some v →
        videosGet (markVideoUploaded store sid) sid
          = some { stepId := v.stepId, sopId := v.sopId, blob := v.blob, uploaded := true }
        ∧ ∀ other, other ≠ sid →
            videosGet (markVideoUploaded store sid) other = videosGet store other) := by
  constructor
  · intro hnone
    simp [markVideoUploaded, hnone]
  · intro v hv
    have hsid : v.stepId = sid := by
      have := List.find?_some hv
      simpa using this
    have hmem : v ∈ store := List.mem_of_find?_eq_some hv
    have hany : store.any (fun r => r.stepId == v.stepId) = true :=
      List.any_eq_true.mpr ⟨v, hmem, by simp⟩
    have hmark : markVideoUploaded store sid
        = store.map fun r =>
            if r.stepId == v.stepId then { v with uploaded := true } else r := by
      simp [markVideoUploaded, hv, videosPut, hany]
    constructor
    · rw [hmark]
      have := videosGet_map_replace_same store sid { v with uploaded := true }
        (by simpa using hsid) (by simp [hv])
      simpa [hsid] using this
    · intro other hother
      rw [hmark]
      have := videosGet_map_replace_other store sid other { v with uploaded := true }
        (by simpa using hsid) hother
      simpa [hsid] using this

/-- The stored pending video of the C10 witness scenario. -/
def pendingVid : VideoRec :=
  { stepId := "s1", sopId := "p1", blob := "blob-1", uploaded := false }

/-- Witness for C10 at concrete inputs: on the empty store,
`markVideoUploaded` is a no-op; on a store holding `pendingVid` under
"s1", it flips only the `uploaded` flag and leaves the lookup of another
key unchanged. -/
theorem markVideoUploaded_spec_witness :
    markVideoUploaded [] "s1" = []
    ∧ videosGet (markVideoUploaded [pendingVid] "s1") "s1"
      = some { stepId := "s1", sopId := "p1", blob := "blob-1", uploaded := true }
    ∧ videosGet (markVideoUploaded [pendingVid] "s1") "s2" = videosGet [pendingVid] "s2" :=
  ⟨(markVideoUploaded_spec [] "s1").1 rfl,
   ((markVideoUploaded_spec [pendingVid] "s1").2 pendingVid rfl).1,
   ((markVideoUploaded_spec [pendingVid] "s1").2 pendingVid rfl).2 "s2" (by decide)⟩
